import Mathlib

/-!
Verification of the catalog-browser frontend against its specification.

The definitions below are shallow embeddings of the TypeScript source:

* `getPageNumbers` — `src/frontend/src/components/Header.tsx`, the
  page-number windowing function of the `Pagination` component
  (lines 238–276).
* `request`, `buildFilterParams` — `src/frontend/src/services/api.ts`.
* `validateForm`, `handleSubmit` — `src/frontend/src/components/ProductForm.tsx`.
* `handleFiltersChange`, `handleSortChange` — the listing component in
  `src/frontend/src/components/ProductForm.tsx` (lines 601–616).
* `shownCurrentPrice`, `shownOriginalPrice` — the price block of
  `src/frontend/src/components/ProductDetail.tsx` (lines 277–291).

JavaScript numbers are modelled as `ℚ` (all operations appearing in the
source are exact on the inputs considered, except division by zero, which
is modelled by `safeDiv` returning `none` where JavaScript produces a
non-finite value).
-/

/-- A page label rendered by the pagination bar: either a concrete page
number or the ellipsis marker (`'...'` in the source). -/
inductive Label where
  | page (n : ℤ)
  | dots
deriving DecidableEq

/-- The list of integers `a, a+1, ..., b` (empty when `b < a`): the
values taken by the JavaScript loop `for (let i = a; i <= b; i++)`. -/
def pagesFromTo (a b : ℤ) : List ℤ :=
  (List.range (b + 1 - a).toNat).map (fun k : ℕ => a + (k : ℤ))

/-- Shallow embedding of `getPageNumbers` from `Header.tsx` (lines 238–276):
`maxVisible = 5`; if `totalPages <= 5` push pages `1..totalPages`;
otherwise push `1`, an ellipsis when `currentPage > 3`, the loop from
`max 2 (currentPage-1)` to `min (totalPages-1) (currentPage+1)` filtered by
`i !== 1 && i !== totalPages`, an ellipsis when
`currentPage < totalPages - 2`, and `totalPages` when `totalPages > 1`. -/
def getPageNumbers (currentPage totalPages : ℤ) : List Label :=
  if totalPages ≤ 5 then
    (pagesFromTo 1 totalPages).map Label.page
  else
    [Label.page 1]
      ++ (if 3 < currentPage then [Label.dots] else [])
      ++ ((pagesFromTo (max 2 (currentPage - 1)) (min (totalPages - 1) (currentPage + 1))).filter
            (fun i => i != 1 && i != totalPages)).map Label.page
      ++ (if currentPage < totalPages - 2 then [Label.dots] else [])
      ++ (if 1 < totalPages then [Label.page totalPages] else [])

/-- Two page numbers "differ by more than one" (the condition under which
the spec requires an ellipsis between them). -/
def bigGap (a b : ℤ) : Bool := decide (1 < (b - a).natAbs)

/-- Checks the labels following a page label `a`: consecutive page labels
must not differ by more than one, an ellipsis must stand between exactly
the consecutive shown page numbers that differ by more than one, and an
ellipsis never trails or doubles. -/
def sepAux (a : ℤ) : List Label → Bool
  | [] => true
  | Label.page b :: rest => !bigGap a b && sepAux b rest
  | Label.dots :: Label.page b :: rest => bigGap a b && sepAux b rest
  | Label.dots :: Label.dots :: _ => false
  | [Label.dots] => false

/-- A label list "contains an ellipsis marker exactly between consecutive
shown page numbers that differ by more than one". -/
def sep : List Label → Bool
  | [] => true
  | Label.dots :: _ => false
  | Label.page a :: rest => sepAux a rest

/-- JavaScript values as they appear in form state and filter objects:
`undefined`, `null`, strings, numbers and booleans. -/
inductive JsVal where
  | undef
  | nullv
  | str (s : String)
  | num (q : ℚ)
  | jsBool (b : Bool)
deriving DecidableEq

/-- The presence test `value !== undefined && value !== null && value !== ''`
used both by `getProducts` (api.ts lines 31–35) and by the edit-mode
payload clean-up (ProductForm.tsx lines 167–172).  The number `0` and the
boolean `false` are present (strict inequality with `''` never identifies
them with the empty string). -/
def isPresent : JsVal → Bool
  | .undef => false
  | .nullv => false
  | .str s => decide (s ≠ "")
  | .num _ => true
  | .jsBool _ => true

/-- `Object.entries(x).forEach(([key, value]) => { if (value !== undefined
&& value !== null && value !== '') out.append(key, value) })`: the
accumulation of the present key/value pairs in source order, as performed
by `getProducts` and by the edit-mode `handleSubmit`. -/
def cleanData (entries : List (String × JsVal)) : List (String × JsVal) :=
  entries.foldl (fun acc kv => if isPresent kv.2 then acc ++ [kv] else acc) []

/-- The `ProductFilter` object of `types/product.ts` (lines 31–40); each
recognized option holds a JavaScript value, where `undefined`/`null`/`''`
mean the option is absent. -/
structure ProductFilter where
  category : JsVal
  brand : JsVal
  min_price : JsVal
  max_price : JsVal
  min_rating : JsVal
  max_rating : JsVal
  in_stock : JsVal
  search : JsVal
deriving DecidableEq

/-- `Object.entries(filters)` in the declared key order. -/
def entriesOfFilter (f : ProductFilter) : List (String × JsVal) :=
  [("category", f.category), ("brand", f.brand), ("min_price", f.min_price),
   ("max_price", f.max_price), ("min_rating", f.min_rating),
   ("max_rating", f.max_rating), ("in_stock", f.in_stock), ("search", f.search)]

/-- Embedding of the filter portion of the query built by `getProducts`
(api.ts lines 30–36): the `URLSearchParams` pairs appended for the filter
object. -/
def buildFilterParams (f : ProductFilter) : List (String × JsVal) :=
  cleanData (entriesOfFilter f)

/-- The `Product` record of `types/product.ts` (lines 1–19).  Note that
`discounted_price` is carried as a field of the wire format; the detail
view never reads it. -/
structure Product where
  id : ℤ
  title : String
  description : String
  price : ℚ
  discount_percentage : ℚ
  discounted_price : ℚ
  category : String
  brand : String
  rating : ℚ
  stock : ℤ
  thumbnail : String
  images : List String
  is_active : Bool
deriving DecidableEq

/-- JavaScript division, with the zero divisor (which JavaScript sends to
a non-finite value) modelled as `none`. -/
def safeDiv (a b : ℚ) : Option ℚ := if b = 0 then none else some (a / b)

/-- The main price shown by `ProductDetail` (line 279): `product.price`. -/
def shownCurrentPrice (p : Product) : ℚ := p.price

/-- The struck-through pre-discount price of `ProductDetail`
(lines 281–285): rendered only under the guard
`product.discount_percentage > 0`, and computed as
`product.price / (1 - product.discount_percentage / 100)`.
`none` means the discount block is not rendered; `some none` means the
block is rendered but the division has a zero divisor. -/
def shownOriginalPrice (p : Product) : Option (Option ℚ) :=
  if 0 < p.discount_percentage then
    some (safeDiv p.price (1 - p.discount_percentage / 100))
  else none

/-- A fully-discounted product: `discount_percentage = 100` is allowed by
the data-model invariant `0 <= discountPercentage <= 100`. -/
def P100 : Product :=
  { id := 1, title := "Sample", description := "A sample product",
    price := 50, discount_percentage := 100, discounted_price := 0,
    category := "misc", brand := "Acme", rating := 4, stock := 3,
    thumbnail := "t.png", images := [], is_active := true }

/-- The parts of a `fetch` response consulted by `ProductApi.request`. -/
structure HttpResponse where
  ok : Bool
  status : ℕ
  statusText : String
deriving DecidableEq

/-- Result of a client API call: either the parsed body or a thrown
JavaScript `Error` carrying only a message string. -/
inductive ApiOutcome (T : Type) where
  | success (v : T)
  | thrown (message : String)
deriving DecidableEq

/-- Embedding of `ProductApi.request` (api.ts lines 6–21): any non-ok
response becomes one thrown generic `Error` whose message embeds the
status line; an ok response resolves to the parsed body. -/
def request (T : Type) (r : HttpResponse) (body : T) : ApiOutcome T :=
  if r.ok then .success body
  else .thrown ("API request failed: " ++ toString r.status ++ " " ++ r.statusText)

/-- Whether an API call ended in a thrown error. -/
def isThrown {T : Type} : ApiOutcome T → Bool
  | .success _ => false
  | .thrown _ => true

/-- The error branch of `ProductDetail` (lines 121–135): when the query
errored — for any reason — or produced no product, the view shows the
text "Product not found". -/
def detailErrorView (error : Bool) (product : Option Product) : Option String :=
  if error || product.isNone then some "Product not found" else none

/-- JavaScript's `String.prototype.trim`: strip leading and trailing
whitespace (written over the character list so that it evaluates inside
the kernel). -/
def jsTrim (s : String) : String :=
  ⟨((s.data.dropWhile Char.isWhitespace).reverse.dropWhile Char.isWhitespace).reverse⟩

/-- The form state of `ProductForm` (lines 55–66); every field is held as
a string or a number (`images` is a comma-joined string in form state). -/
structure FormData where
  title : String
  description : String
  price : ℚ
  discount_percentage : ℚ
  category : String
  brand : String
  rating : ℚ
  stock : ℚ
  thumbnail : String
  images : String
deriving DecidableEq

/-- The per-field error slots written by `validateForm`; `some msg` means
the error object carries that field's name mapped to `msg`. -/
structure FormErrors where
  title : Option String
  description : Option String
  price : Option String
  discount_percentage : Option String
  category : Option String
  stock : Option String
  rating : Option String
deriving DecidableEq

/-- Embedding of `validateForm` (ProductForm.tsx lines 106–139).  The
JavaScript truthiness guards `formData.discount_percentage && ...` and
`formData.rating && ...` are the `≠ 0` conjuncts. -/
def validateForm (f : FormData) : FormErrors where
  title := if jsTrim f.title = "" then some "Title is required" else none
  description := if jsTrim f.description = "" then some "Description is required" else none
  price := if f.price ≤ 0 then some "Price must be greater than 0" else none
  discount_percentage :=
    if f.discount_percentage ≠ 0 ∧ (f.discount_percentage < 0 ∨ 100 < f.discount_percentage)
    then some "Discount must be between 0 and 100" else none
  category := if f.category = "" then some "Category is required" else none
  stock := if f.stock < 0 then some "Stock cannot be negative" else none
  rating :=
    if f.rating ≠ 0 ∧ (f.rating < 0 ∨ 5 < f.rating)
    then some "Rating must be between 0 and 5" else none

/-- `Object.keys(newErrors).length === 0`: no error slot is filled. -/
def hasNoErrors (e : FormErrors) : Bool :=
  e.title.isNone && e.description.isNone && e.price.isNone &&
  e.discount_percentage.isNone && e.category.isNone && e.stock.isNone &&
  e.rating.isNone

/-- The form's mode prop. -/
inductive Mode where
  | create
  | edit
deriving DecidableEq

/-- The network effect of a submission attempt: blocked by validation, a
create request with the full form data, or an update request with the
cleaned partial payload. -/
inductive SubmitAction where
  | blocked
  | createReq (f : FormData)
  | updateReq (id : ℤ) (payload : List (String × JsVal))
deriving DecidableEq

/-- `Object.entries(formData)` in the declared key order. -/
def entriesOfForm (f : FormData) : List (String × JsVal) :=
  [("title", .str f.title), ("description", .str f.description),
   ("price", .num f.price), ("discount_percentage", .num f.discount_percentage),
   ("category", .str f.category), ("brand", .str f.brand),
   ("rating", .num f.rating), ("stock", .num f.stock),
   ("thumbnail", .str f.thumbnail), ("images", .str f.images)]

/-- Embedding of `handleSubmit` (ProductForm.tsx lines 141–200): an input
failing `validateForm` sends nothing; otherwise create mode posts the full
form data and edit mode puts the cleaned payload (lines 164–175). -/
def handleSubmit (m : Mode) (productId : ℤ) (f : FormData) : SubmitAction :=
  if hasNoErrors (validateForm f) then
    match m with
    | .create => .createReq f
    | .edit => .updateReq productId (cleanData (entriesOfForm f))
  else .blocked

/-- Sort direction of the listing view. -/
inductive SortOrder where
  | asc
  | desc
deriving DecidableEq

/-- The listing component's state hooks (filters, sort, pagination). -/
structure ListingState where
  filters : ProductFilter
  sortBy : String
  sortOrder : SortOrder
  currentPage : ℤ
  pageSize : ℤ
deriving DecidableEq

/-- Embedding of `handleFiltersChange` (ProductForm.tsx lines 601–605):
stores the new filters and resets the page to 1. -/
def handleFiltersChange (s : ListingState) (newFilters : ProductFilter) : ListingState :=
  { s with filters := newFilters, currentPage := 1 }

/-- Embedding of `handleSortChange` (ProductForm.tsx lines 607–616):
toggles the direction on the same field, otherwise selects the field
ascending; either way the page is reset to 1. -/
def handleSortChange (s : ListingState) (field : String) : ListingState :=
  if s.sortBy = field then
    { s with
      sortOrder := match s.sortOrder with | .asc => .desc | .desc => .asc,
      currentPage := 1 }
  else
    { s with sortBy := field, sortOrder := .asc, currentPage := 1 }

/-- Looking a field up in a partial-update payload. -/
def lookupField (payload : List (String × JsVal)) (k : String) : Option JsVal :=
  (payload.find? (fun kv => kv.1 == k)).map Prod.snd

/-- Modelled from the spec: the store's partial-update operation is not in
the repository slice (only its caller is); per §3, "mutated via
partial-update call (only supplied fields change)", a field keeps its old
value unless the payload supplies it. -/
def applyField (payload : List (String × JsVal)) (k : String) (old : JsVal) : JsVal :=
  (lookupField payload k).getD old

/-- A product with an ordinary partial discount. -/
def P20 : Product :=
  { id := 2, title := "Deal", description := "A discounted product",
    price := 80, discount_percentage := 20, discounted_price := 64,
    category := "misc", brand := "Acme", rating := 4, stock := 5,
    thumbnail := "t.png", images := [], is_active := true }

/-- A form input violating every numeric invariant of §3 at once. -/
def badForm : FormData :=
  { title := "x", description := "y", price := -1, discount_percentage := 200,
    category := "z", brand := "", rating := 7, stock := -2,
    thumbnail := "", images := "" }

/-- A form input satisfying every invariant and every required field. -/
def goodForm : FormData :=
  { title := "Phone", description := "A nice phone", price := 10,
    discount_percentage := 5, category := "tech", brand := "",
    rating := 4, stock := 2, thumbnail := "", images := "" }

/-- An edit-form state whose `brand` (and `thumbnail`, `images`) are the
empty string, hence absent from the cleaned payload. -/
def sampleEditForm : FormData :=
  { title := "Phone", description := "A nice phone", price := 10,
    discount_percentage := 5, category := "tech", brand := "",
    rating := 4, stock := 2, thumbnail := "", images := "" }

example : getPageNumbers 5 10 =
    [Label.page 1, Label.dots, Label.page 4, Label.page 5, Label.page 6,
     Label.dots, Label.page 10] := by decide

example : getPageNumbers 1 3 = [Label.page 1, Label.page 2, Label.page 3] := by decide

example : sep (getPageNumbers 5 10) = true := by decide
example : sep (getPageNumbers 1 6) = true := by decide
example : sep (getPageNumbers 6 6) = true := by decide

theorem pagesFromTo_cons {a b : ℤ} (h : a ≤ b) :
    pagesFromTo a b = a :: pagesFromTo (a + 1) b := by
  have h1 : (b + 1 - a).toNat = (b + 1 - (a + 1)).toNat + 1 := by omega
  simp only [pagesFromTo, h1, List.range_succ_eq_map, List.map_cons, List.map_map]
  congr 1
  · simp
  · apply List.map_congr_left
    intro k _
    simp only [Function.comp_apply]
    push_cast
    ring

theorem mem_pagesFromTo {i a b : ℤ} : i ∈ pagesFromTo a b ↔ a ≤ i ∧ i ≤ b := by
  unfold pagesFromTo
  rw [List.mem_map]
  constructor
  · rintro ⟨k, hk, rfl⟩
    rw [List.mem_range] at hk
    omega
  · rintro ⟨hl, hr⟩
    refine ⟨(i - a).toNat, ?_, ?_⟩
    · rw [List.mem_range]; omega
    · omega

theorem sepAux_run (n : ℕ) : ∀ (a b : ℤ), (b - a).toNat = n → a ≤ b →
    ∀ suffix : List Label,
      sepAux a ((pagesFromTo (a + 1) b).map Label.page ++ suffix) = sepAux b suffix := by
  induction n with
  | zero =>
    intro a b hn hab suffix
    have hab' : a = b := by omega
    subst hab'
    have he : pagesFromTo (a + 1) a = [] := by
      have : (a + 1 - (a + 1)).toNat = 0 := by omega
      simp [pagesFromTo, this]
    simp [he]
  | succ n ih =>
    intro a b hn hab suffix
    have hab' : a + 1 ≤ b := by omega
    rw [pagesFromTo_cons hab']
    simp only [List.map_cons, List.cons_append]
    have hgap : bigGap a (a + 1) = false := by
      simp [bigGap]
    rw [sepAux, hgap]
    simp only [Bool.not_false, Bool.true_and]
    exact ih (a + 1) b (by omega) hab' suffix

/-- Claim C1: for every `1 ≤ currentPage ≤ totalPages`, the windowing
function lists exactly `1..totalPages` when `totalPages ≤ 5`; otherwise it
includes page 1, page `totalPages`, every page of the window
`[currentPage-1, currentPage+1]` clipped to `[2, totalPages-1]`, and
places the ellipsis marker exactly between consecutive shown page numbers
that differ by more than one. -/
theorem c1_page_windowing (cp tp : ℤ) (h1 : 1 ≤ cp) (h2 : cp ≤ tp) :
    (tp ≤ 5 → getPageNumbers cp tp =
        (List.range tp.toNat).map (fun k : ℕ => Label.page ((k : ℤ) + 1))) ∧
    (5 < tp →
      Label.page 1 ∈ getPageNumbers cp tp ∧
      Label.page tp ∈ getPageNumbers cp tp ∧
      (∀ p : ℤ, max 2 (cp - 1) ≤ p → p ≤ min (tp - 1) (cp + 1) →
        Label.page p ∈ getPageNumbers cp tp) ∧
      sep (getPageNumbers cp tp) = true) := by
  constructor
  · intro h5
    have ht : (tp + 1 - 1).toNat = tp.toNat := by omega
    simp only [getPageNumbers, if_pos h5]
    unfold pagesFromTo
    rw [ht, List.map_map]
    apply List.map_congr_left
    intro k _
    simp only [Function.comp_apply]
    congr 1
    ring
  · intro h5
    have hnot : ¬ tp ≤ 5 := by omega
    have htp1 : (1:ℤ) < tp := by omega
    have hfil : (pagesFromTo (max 2 (cp - 1)) (min (tp - 1) (cp + 1))).filter
        (fun i => i != 1 && i != tp) = pagesFromTo (max 2 (cp - 1)) (min (tp - 1) (cp + 1)) := by
      apply List.filter_eq_self.mpr
      intro i hi
      rw [mem_pagesFromTo] at hi
      have hi1 : i ≠ 1 := by omega
      have hi2 : i ≠ tp := by omega
      simp [hi1, hi2]
    by_cases hc3 : 3 < cp
    · by_cases hctp : cp < tp - 2
      · have hs : max 2 (cp - 1) = cp - 1 := by omega
        have he : min (tp - 1) (cp + 1) = cp + 1 := by omega
        rw [getPageNumbers, if_neg hnot, hfil, if_pos hc3, if_pos hctp, if_pos htp1, hs, he]
        refine ⟨?_, ?_, ?_, ?_⟩
        · simp
        · simp
        · intro p hp1 hp2
          simp [mem_pagesFromTo]
          omega
        · rw [pagesFromTo_cons (show cp - 1 ≤ cp + 1 by omega)]
          simp only [List.map_cons, List.singleton_append, List.cons_append,
            List.append_assoc, List.nil_append]
          rw [sep]
          rw [sepAux]
          have hgap1 : bigGap 1 (cp - 1) = true := by
            simp only [bigGap, decide_eq_true_eq]
            omega
          rw [hgap1, Bool.true_and]
          rw [sepAux_run 2 (cp - 1) (cp + 1) (by omega) (by omega)]
          simp only [sepAux, bigGap, Bool.and_true, decide_eq_true_eq]
          omega
      · have hs : max 2 (cp - 1) = cp - 1 := by omega
        have he : min (tp - 1) (cp + 1) = tp - 1 := by omega
        rw [getPageNumbers, if_neg hnot, hfil, if_pos hc3, if_neg hctp, if_pos htp1, hs, he]
        refine ⟨?_, ?_, ?_, ?_⟩
        · simp
        · simp
        · intro p hp1 hp2
          simp [mem_pagesFromTo]
          omega
        · rw [pagesFromTo_cons (show cp - 1 ≤ tp - 1 by omega)]
          simp only [List.map_cons, List.singleton_append, List.cons_append,
            List.append_assoc, List.nil_append]
          rw [sep]
          rw [sepAux]
          have hgap1 : bigGap 1 (cp - 1) = true := by
            simp only [bigGap, decide_eq_true_eq]
            omega
          rw [hgap1, Bool.true_and]
          rw [sepAux_run (tp - cp).toNat (cp - 1) (tp - 1) (by omega) (by omega)]
          have hone : tp - (tp - 1) = 1 := by ring
          simp only [sepAux, bigGap, Bool.and_true, hone]
          simp
    · have hctp : cp < tp - 2 := by omega
      have hs : max 2 (cp - 1) = 1 + 1 := by omega
      have he : min (tp - 1) (cp + 1) = cp + 1 := by omega
      rw [getPageNumbers, if_neg hnot, hfil, if_neg hc3, if_pos hctp, if_pos htp1, hs, he]
      refine ⟨?_, ?_, ?_, ?_⟩
      · simp
      · simp
      · intro p hp1 hp2
        simp [mem_pagesFromTo]
        omega
      · simp only [List.singleton_append, List.cons_append, List.append_assoc,
          List.nil_append]
        rw [sep]
        rw [sepAux_run cp.toNat 1 (cp + 1) (by omega) (by omega)]
        simp only [sepAux, bigGap, Bool.and_true, decide_eq_true_eq]
        omega

/-- Claim C1 witness: the theorem applied at `(currentPage, totalPages) =
(1, 3)` (small case) and `(5, 10)` (windowed case), with every hypothesis
discharged on the concrete inputs. -/
theorem c1_page_windowing_witness :
    getPageNumbers 1 3 =
      (List.range (3:ℤ).toNat).map (fun k : ℕ => Label.page ((k : ℤ) + 1)) ∧
    Label.page 1 ∈ getPageNumbers 5 10 ∧
    Label.page 10 ∈ getPageNumbers 5 10 ∧
    Label.page 4 ∈ getPageNumbers 5 10 ∧
    sep (getPageNumbers 5 10) = true := by
  have hsmall := (c1_page_windowing 1 3 (by decide) (by decide)).1 (by decide)
  have hbig := (c1_page_windowing 5 10 (by decide) (by decide)).2 (by decide)
  exact ⟨hsmall, hbig.1, hbig.2.1,
    hbig.2.2.1 4 (by decide) (by decide), hbig.2.2.2⟩

/-- Claim C4: the windowing function returns
`[1, ellipsis, 4, 5, 6, ellipsis, 10]` on `totalPages = 10,
currentPage = 5`, and `[1, 2, 3]` on `totalPages = 3, currentPage = 1`. -/
theorem c4_windowing_examples :
    getPageNumbers 5 10 =
      [Label.page 1, Label.dots, Label.page 4, Label.page 5, Label.page 6,
       Label.dots, Label.page 10] ∧
    getPageNumbers 1 3 = [Label.page 1, Label.page 2, Label.page 3] := by
  constructor <;> decide

/-- Claim C7: the windowing function is deterministic — two runs on
identical inputs yield identical label sequences (it is a pure function of
its two integer arguments, with no hidden state). -/
theorem c7_windowing_deterministic (cp tp cp' tp' : ℤ)
    (hcp : cp = cp') (htp : tp = tp') :
    getPageNumbers cp tp = getPageNumbers cp' tp' := by
  rw [hcp, htp]

/-- Claim C7 witness: determinism applied at the concrete input
`(currentPage, totalPages) = (5, 10)`. -/
theorem c7_windowing_deterministic_witness :
    getPageNumbers 5 10 = getPageNumbers 5 10 :=
  c7_windowing_deterministic 5 10 5 10 rfl rfl

/-- Claim C9: every filter change and every sort change resets the
requested page to the first page — after any invocation of
`handleFiltersChange` or `handleSortChange`, the current page is 1. -/
theorem c9_page_reset (s : ListingState) (newFilters : ProductFilter) (field : String) :
    (handleFiltersChange s newFilters).currentPage = 1 ∧
    (handleSortChange s field).currentPage = 1 := by
  refine ⟨rfl, ?_⟩
  unfold handleSortChange
  split <;> rfl

/-- Claim C8: the pre-discount price computation of the detail view runs
under the guard `discount_percentage > 0` only, so at
`discount_percentage = 100` — permitted by the data-model invariant
`0 ≤ discountPercentage ≤ 100` — the discount block is rendered with a
zero divisor: the non-finite branch of the division is reachable. -/
theorem c8_division_unguarded (p : Product) (h : p.discount_percentage = 100) :
    ((0:ℚ) ≤ 100 ∧ (100:ℚ) ≤ 100) ∧
    (0 < p.discount_percentage) ∧
    (1 - p.discount_percentage / 100 = 0) ∧
    shownOriginalPrice p = some none := by
  refine ⟨⟨by norm_num, le_refl _⟩, by rw [h]; norm_num, by rw [h]; norm_num, ?_⟩
  unfold shownOriginalPrice safeDiv
  rw [if_pos (by rw [h]; norm_num), if_pos (by rw [h]; norm_num)]

/-- Claim C8 witness: the fully-discounted concrete product `P100`. -/
theorem c8_division_unguarded_witness :
    P100.discount_percentage = 100 ∧ shownOriginalPrice P100 = some none := by
  have h := c8_division_unguarded P100 (by norm_num [P100])
  exact ⟨by norm_num [P100], h.2.2.2⟩

theorem cleanData_eq_filter (l : List (String × JsVal)) :
    cleanData l = l.filter (fun kv => isPresent kv.2) := by
  have h : ∀ acc : List (String × JsVal),
      l.foldl (fun acc kv => if isPresent kv.2 then acc ++ [kv] else acc) acc
        = acc ++ l.filter (fun kv => isPresent kv.2) := by
    induction l with
    | nil => intro acc; simp
    | cons hd tl ih =>
      intro acc
      simp only [List.foldl_cons, List.filter_cons]
      by_cases hp : isPresent hd.2 = true
      · rw [if_pos hp, ih, if_pos hp]
        simp
      · rw [if_neg hp, ih, if_neg hp]
  simpa [cleanData] using h []

/-- Claim C6: an absent filter option (`undefined`, `null` or `''`)
contributes nothing to the request; the appended query pairs are exactly
the filter keys whose values are present, each present value — including
`false` and `0` — forwarded unchanged. -/
theorem c6_filter_absence (f : ProductFilter) (k : String) (v : JsVal) :
    buildFilterParams f = (entriesOfFilter f).filter (fun kv => isPresent kv.2) ∧
    ((k, v) ∈ buildFilterParams f ↔
      ((k, v) ∈ entriesOfFilter f ∧ isPresent v = true)) ∧
    isPresent .undef = false ∧ isPresent .nullv = false ∧
    isPresent (.str "") = false ∧
    isPresent (.jsBool false) = true ∧ isPresent (.num 0) = true := by
  refine ⟨cleanData_eq_filter _, ?_, rfl, rfl, by decide, rfl, rfl⟩
  rw [buildFilterParams, cleanData_eq_filter, List.mem_filter]

/-- Claim C10: the edit submission's payload contains exactly the form
fields whose values are neither `undefined`, `null` nor `''`; a field the
payload omits is left unchanged by the (spec-modelled) partial update, and
no string field can be cleared to the empty string through the edit
form. -/
theorem c10_edit_payload (f : FormData) (pid : ℤ) :
    (handleSubmit .edit pid f = .blocked ∨
      handleSubmit .edit pid f = .updateReq pid (cleanData (entriesOfForm f))) ∧
    (∀ k v, (k, v) ∈ cleanData (entriesOfForm f) ↔
      ((k, v) ∈ entriesOfForm f ∧ isPresent v = true)) ∧
    (∀ k old, lookupField (cleanData (entriesOfForm f)) k = none →
      applyField (cleanData (entriesOfForm f)) k old = old) ∧
    (∀ k old, applyField (cleanData (entriesOfForm f)) k old = JsVal.str "" →
      old = JsVal.str "") := by
  refine ⟨?_, ?_, ?_, ?_⟩
  · unfold handleSubmit
    by_cases h : hasNoErrors (validateForm f) = true
    · right
      rw [if_pos h]
    · left
      rw [if_neg h]
  · intro k v
    rw [cleanData_eq_filter, List.mem_filter]
  · intro k old h
    unfold applyField
    rw [h]
    rfl
  · intro k old h
    unfold applyField lookupField at h
    rcases hfind : (cleanData (entriesOfForm f)).find?
        (fun kv => kv.1 == k) with _ | kv
    · rw [hfind] at h
      exact h.symm ▸ rfl
    · rw [hfind] at h
      simp only [Option.map_some', Option.getD_some] at h
      have hmem : kv ∈ cleanData (entriesOfForm f) := List.mem_of_find?_eq_some hfind
      rw [cleanData_eq_filter, List.mem_filter] at hmem
      have hpres := hmem.2
      rw [h] at hpres
      exact absurd hpres (by decide)

/-- Claim C10 witness: on `sampleEditForm`, whose `brand` is `''`, the
cleaned payload omits `brand`, so the update leaves the old brand intact
and cannot set it to the empty string. -/
theorem c10_edit_payload_witness :
    lookupField (cleanData (entriesOfForm sampleEditForm)) "brand" = none ∧
    applyField (cleanData (entriesOfForm sampleEditForm)) "brand"
      (JsVal.str "Acme") = JsVal.str "Acme" ∧
    ("title", JsVal.str "Phone") ∈ cleanData (entriesOfForm sampleEditForm) ∧
    handleSubmit .edit 7 sampleEditForm =
      .updateReq 7 (cleanData (entriesOfForm sampleEditForm)) := by
  have h := c10_edit_payload sampleEditForm 7
  refine ⟨by decide, h.2.2.1 "brand" (JsVal.str "Acme") (by decide), ?_, ?_⟩
  · exact (h.2.1 "title" (JsVal.str "Phone")).mpr ⟨by decide, by decide⟩
  · rcases h.1 with hb | hok
    · exact absurd hb (by decide)
    · exact hok

/-- Claim C5: a create/edit input violating a §3 invariant fails
validation with an error in the violated field's slot and nothing is
submitted; an input satisfying the invariants together with non-empty
title, description and category passes validation and is submitted. -/
theorem c5_form_validation (f : FormData) (m : Mode) (pid : ℤ) :
    (f.price ≤ 0 →
      (validateForm f).price = some "Price must be greater than 0" ∧
      handleSubmit m pid f = .blocked) ∧
    ((f.discount_percentage < 0 ∨ 100 < f.discount_percentage) →
      (validateForm f).discount_percentage = some "Discount must be between 0 and 100" ∧
      handleSubmit m pid f = .blocked) ∧
    ((f.rating < 0 ∨ 5 < f.rating) →
      (validateForm f).rating = some "Rating must be between 0 and 5" ∧
      handleSubmit m pid f = .blocked) ∧
    (f.stock < 0 →
      (validateForm f).stock = some "Stock cannot be negative" ∧
      handleSubmit m pid f = .blocked) ∧
    ((0 < f.price ∧ 0 ≤ f.discount_percentage ∧ f.discount_percentage ≤ 100 ∧
      0 ≤ f.rating ∧ f.rating ≤ 5 ∧ 0 ≤ f.stock ∧
      jsTrim f.title ≠ "" ∧ jsTrim f.description ≠ "" ∧ f.category ≠ "") →
      hasNoErrors (validateForm f) = true ∧ handleSubmit m pid f ≠ .blocked) := by
  have hsub : ¬ hasNoErrors (validateForm f) = true → handleSubmit m pid f = .blocked := by
    intro hp
    unfold handleSubmit
    rw [if_neg hp]
  refine ⟨?_, ?_, ?_, ?_, ?_⟩
  · intro hp
    have hslot : (validateForm f).price = some "Price must be greater than 0" := by
      simp only [validateForm]
      rw [if_pos hp]
    exact ⟨hslot, hsub (by simp [hasNoErrors, hslot])⟩
  · intro hp
    have hne : f.discount_percentage ≠ 0 := by
      rcases hp with h | h <;> intro h0 <;> rw [h0] at h <;> norm_num at h
    have hslot : (validateForm f).discount_percentage =
        some "Discount must be between 0 and 100" := by
      simp only [validateForm]
      rw [if_pos ⟨hne, hp⟩]
    exact ⟨hslot, hsub (by simp [hasNoErrors, hslot])⟩
  · intro hp
    have hne : f.rating ≠ 0 := by
      rcases hp with h | h <;> intro h0 <;> rw [h0] at h <;> norm_num at h
    have hslot : (validateForm f).rating = some "Rating must be between 0 and 5" := by
      simp only [validateForm]
      rw [if_pos ⟨hne, hp⟩]
    exact ⟨hslot, hsub (by simp [hasNoErrors, hslot])⟩
  · intro hp
    have hslot : (validateForm f).stock = some "Stock cannot be negative" := by
      simp only [validateForm]
      rw [if_pos hp]
    exact ⟨hslot, hsub (by simp [hasNoErrors, hslot])⟩
  · rintro ⟨hp, hd0, hd100, hr0, hr5, hst, hti, hde, hca⟩
    have h1 : (validateForm f).title = none := by
      simp only [validateForm]
      rw [if_neg hti]
    have h2 : (validateForm f).description = none := by
      simp only [validateForm]
      rw [if_neg hde]
    have h3 : (validateForm f).price = none := by
      simp only [validateForm]
      rw [if_neg (by linarith)]
    have h4 : (validateForm f).discount_percentage = none := by
      simp only [validateForm]
      rw [if_neg ?_]
      rintro ⟨-, hlt | hgt⟩
      · linarith
      · linarith
    have h5 : (validateForm f).category = none := by
      simp only [validateForm]
      rw [if_neg hca]
    have h6 : (validateForm f).stock = none := by
      simp only [validateForm]
      rw [if_neg (by linarith)]
    have h7 : (validateForm f).rating = none := by
      simp only [validateForm]
      rw [if_neg ?_]
      rintro ⟨-, hlt | hgt⟩
      · linarith
      · linarith
    have hok : hasNoErrors (validateForm f) = true := by
      simp [hasNoErrors, h1, h2, h3, h4, h5, h6, h7]
    refine ⟨hok, ?_⟩
    unfold handleSubmit
    rw [if_pos hok]
    cases m <;> simp

/-- Claim C5 witness: the theorem applied to `badForm`, which breaks all
four numeric invariants (each violation blocks submission and fills the
corresponding error slot), and to `goodForm`, which passes validation and
is submitted. -/
theorem c5_form_validation_witness :
    (validateForm badForm).price = some "Price must be greater than 0" ∧
    (validateForm badForm).discount_percentage = some "Discount must be between 0 and 100" ∧
    (validateForm badForm).rating = some "Rating must be between 0 and 5" ∧
    (validateForm badForm).stock = some "Stock cannot be negative" ∧
    handleSubmit .create 0 badForm = .blocked ∧
    hasNoErrors (validateForm goodForm) = true ∧
    handleSubmit .edit 7 goodForm ≠ .blocked := by
  have hb := c5_form_validation badForm .create 0
  have hg := c5_form_validation goodForm .edit 7
  have hgood := hg.2.2.2.2 ⟨by norm_num [goodForm], by norm_num [goodForm],
    by norm_num [goodForm], by norm_num [goodForm], by norm_num [goodForm],
    by norm_num [goodForm], by decide, by decide, by decide⟩
  exact ⟨(hb.1 (by norm_num [badForm])).1,
    (hb.2.1 (Or.inr (by norm_num [badForm]))).1,
    (hb.2.2.1 (Or.inr (by norm_num [badForm]))).1,
    (hb.2.2.2.1 (by norm_num [badForm])).1,
    (hb.1 (by norm_num [badForm])).2,
    hgood.1, hgood.2⟩

/-- Claim C3 counterexample: on the fully-discounted product `P100`
(`discountPercentage = 100 > 0`, a value the §3 invariant permits), the
detail view's discount block is rendered but its pre-discount computation
divides by zero, so no shown pre-discount price exists that is related to
the shown post-discount price by the formula — the claim fails as
stated. -/
theorem c3_discount_formula_counterexample :
    0 < P100.discount_percentage ∧
    shownOriginalPrice P100 = some none ∧
    ¬ ∃ pre : ℚ, shownOriginalPrice P100 = some (some pre) ∧
        shownCurrentPrice P100 = pre * (1 - P100.discount_percentage / 100) := by
  have hnone : shownOriginalPrice P100 = some none := by
    unfold shownOriginalPrice safeDiv
    norm_num [P100]
  refine ⟨by norm_num [P100], hnone, ?_⟩
  rintro ⟨pre, hpre, -⟩
  rw [hnone] at hpre
  simp at hpre

/-- Claim C3 amended: for `0 < discountPercentage < 100`, the shown
post-discount price (`product.price`) and the shown pre-discount price
(`price / (1 - discountPercentage/100)`) are related by exactly
`post = pre * (1 - discountPercentage/100)`; both shown prices are
computed from `price` and `discount_percentage` alone — the record's
stored `discounted_price` field never influences them. -/
theorem c3_discount_formula_amended (p : Product)
    (h1 : 0 < p.discount_percentage) (h2 : p.discount_percentage < 100) :
    (∃ pre : ℚ, shownOriginalPrice p = some (some pre) ∧
        shownCurrentPrice p = pre * (1 - p.discount_percentage / 100)) ∧
    (∀ q : Product, q.price = p.price →
        q.discount_percentage = p.discount_percentage →
        shownOriginalPrice q = shownOriginalPrice p ∧
        shownCurrentPrice q = shownCurrentPrice p) := by
  have hden : 1 - p.discount_percentage / 100 ≠ 0 := by
    intro h0
    have h100 : p.discount_percentage = 100 := by
      field_simp at h0
      linarith
    linarith
  constructor
  · refine ⟨p.price / (1 - p.discount_percentage / 100), ?_, ?_⟩
    · unfold shownOriginalPrice safeDiv
      rw [if_pos h1, if_neg hden]
    · unfold shownCurrentPrice
      rw [div_mul_cancel₀ _ hden]
  · intro q hq hqd
    unfold shownOriginalPrice shownCurrentPrice safeDiv
    rw [hq, hqd]
    exact ⟨rfl, rfl⟩

/-- Claim C3 amended witness: the theorem applied to the concrete
product `P20` (20% discount). -/
theorem c3_discount_formula_amended_witness :
    ∃ pre : ℚ, shownOriginalPrice P20 = some (some pre) ∧
      shownCurrentPrice P20 = pre * (1 - P20.discount_percentage / 100) :=
  (c3_discount_formula_amended P20 (by norm_num [P20]) (by norm_num [P20])).1

/-- Claim C2 counterexample: the client does not surface an id-lookup
miss as a branchable non-error result distinct from a store-level
failure — a 404 response and a 503 response are both collapsed into the
same thrown generic `Error` kind, and the detail view renders any error
as "Product not found". -/
theorem c2_error_kinds_counterexample :
    isThrown (request ℚ ⟨false, 404, "Not Found"⟩ 0) = true ∧
    isThrown (request ℚ ⟨false, 503, "Service Unavailable"⟩ 0) = true ∧
    request ℚ ⟨false, 404, "Not Found"⟩ 0 =
      ApiOutcome.thrown "API request failed: 404 Not Found" ∧
    request ℚ ⟨false, 503, "Service Unavailable"⟩ 0 =
      ApiOutcome.thrown "API request failed: 503 Service Unavailable" ∧
    detailErrorView true none = some "Product not found" := by
  refine ⟨rfl, rfl, by decide, by decide, rfl⟩

/-- Claim C2 amended: every non-ok response — id-lookup miss (404) and
store-level failure (503) alike — is surfaced by `ProductApi.request` as
one thrown generic `Error` whose message embeds only the status line;
the kinds are not distinguished, and the detail view labels every failed
or empty load "Product not found". -/
theorem c2_error_kinds_amended (T : Type) (r : HttpResponse) (body : T)
    (h : r.ok = false) :
    request T r body =
      .thrown ("API request failed: " ++ toString r.status ++ " " ++ r.statusText) ∧
    (∀ (e : Bool) (p : Option Product), (e = true ∨ p = none) →
      detailErrorView e p = some "Product not found") := by
  constructor
  · unfold request
    rw [h]
    simp
  · intro e p h2
    unfold detailErrorView
    rcases h2 with rfl | rfl
    · simp
    · simp

/-- Claim C2 amended witness: the theorem applied to a concrete 503
response and to the error-flagged detail view. -/
theorem c2_error_kinds_amended_witness :
    request ℚ ⟨false, 503, "Service Unavailable"⟩ 0 =
      ApiOutcome.thrown "API request failed: 503 Service Unavailable" ∧
    detailErrorView true none = some "Product not found" := by
  have h := c2_error_kinds_amended ℚ ⟨false, 503, "Service Unavailable"⟩ 0 rfl
  refine ⟨?_, h.2 true none (Or.inl rfl)⟩
  rw [h.1]
  decide
